import Mathlib

/-!
Verification development for the marathon-plan activity analytics pipeline.

Shallow embedding of the core pipeline (backend/app/processing.py,
backend/app/parse_strava_gpx.py, backend/app/parse_strava_fit.py) into Lean:

* Python floats are idealised as real numbers; the float special value NaN and
  the Python object None are modelled explicitly by the three-valued type
  `PyNum` (pandas stores None in a numeric column as NaN, so DataFrame columns
  are modelled as `Option` rationals/reals where `none` is NaN).
* pandas Series reductions (`mean`, `max`, `count`) skip NaN entries and
  return NaN on an empty/all-NaN column; scalar arithmetic propagates NaN.
* Fallible Python code (statements that can raise) is modelled with `Except`.
* Timestamps are modelled as integer epoch seconds obtained from the civil
  calendar fields, matching `pandas.to_datetime` with an exact format string.
-/

namespace Marathon

/-- Value of one cell of a run-summary dictionary: Python `None`, float NaN,
or an ordinary float (idealised as a real number). -/
inductive PyNum where
  | none
  | nan
  | num (x : ℝ)
deriving Inhabited

/-- True exactly on `PyNum.none` (the Python object None). -/
def PyNum.isNone : PyNum → Bool
  | .none => true
  | _ => false

/-- Division of a cell by a nonzero constant, as numpy/pandas does it:
NaN propagates. `None` cells never reach this operation in the modelled
code paths (an all-None object column raises first; see `analyzeRuns`). -/
noncomputable def PyNum.divC (v : PyNum) (c : ℝ) : PyNum :=
  match v with
  | .none => .none
  | .nan => .nan
  | .num x => .num (x / c)

/-- Whether characters list `l` begins with `p`. -/
def listStarts : List Char → List Char → Bool
  | _, [] => true
  | [], _ :: _ => false
  | c :: cs, p :: ps => c == p && listStarts cs ps

/-- Whether `needle` occurs as a contiguous segment of `hay`
(Python `needle in hay` on strings). -/
def listHasSeg (needle : List Char) : List Char → Bool
  | [] => listStarts [] needle
  | c :: cs => listStarts (c :: cs) needle || listHasSeg needle cs

/-- Python `hay.__contains__(needle)` for strings. -/
def strHasSeg (hay needle : String) : Bool :=
  listHasSeg needle.data hay.data

/-- Python `s.endswith(suffix)`. -/
def strEnds (s suf : String) : Bool :=
  listStarts s.data.reverse suf.data.reverse

/-- ASCII decimal digit test, as matched by the regex class for digits. -/
def isDig (c : Char) : Bool := c.isDigit

/-- Numeric value of a digit character. -/
def digVal (c : Char) : ℤ := (c.toNat : ℤ) - 48

/-- Shape of the anchored regex for naive timestamps used in
`processing.parse_time_df`: four digits, dash, two digits, dash, two digits,
space, then three colon-separated two-digit fields. -/
def matchNaive : List Char → Bool
  | [y1, y2, y3, y4, '-', m1, m2, '-', d1, d2, ' ',
     h1, h2, ':', n1, n2, ':', s1, s2] =>
      isDig y1 && isDig y2 && isDig y3 && isDig y4 &&
      isDig m1 && isDig m2 && isDig d1 && isDig d2 &&
      isDig h1 && isDig h2 && isDig n1 && isDig n2 &&
      isDig s1 && isDig s2
  | _ => false

/-- Shape of the anchored regex for aware timestamps used in
`processing.parse_time_df`: the naive shape followed by a literal plus sign
and a two-digit, colon, two-digit offset.  Note the regex only admits a
plus sign, never a minus sign. -/
def matchTz : List Char → Bool
  | [y1, y2, y3, y4, '-', m1, m2, '-', d1, d2, ' ',
     h1, h2, ':', n1, n2, ':', s1, s2, '+', o1, o2, ':', p1, p2] =>
      isDig y1 && isDig y2 && isDig y3 && isDig y4 &&
      isDig m1 && isDig m2 && isDig d1 && isDig d2 &&
      isDig h1 && isDig h2 && isDig n1 && isDig n2 &&
      isDig s1 && isDig s2 &&
      isDig o1 && isDig o2 && isDig p1 && isDig p2
  | _ => false

/-- A row survives `parse_time_df` exactly when its time value, rendered as a
string, fully matches one of the two anchored regexes. -/
def timeMatches (s : String) : Bool :=
  matchNaive s.data || matchTz s.data

/-- Days since the Unix epoch of a civil date (proleptic Gregorian calendar),
the standard days-from-civil computation used to model library date
arithmetic. -/
def daysFromCivil (y m d : ℤ) : ℤ :=
  let ys := if m ≤ 2 then y - 1 else y
  let era := Int.fdiv ys 400
  let yoe := ys - era * 400
  let mp := if m ≤ 2 then m + 9 else m - 3
  let doy := Int.fdiv (153 * mp + 2) 5 + d - 1
  let doe := yoe * 365 + Int.fdiv yoe 4 - Int.fdiv yoe 100 + doy
  era * 146097 + doe - 719468

/-- Epoch seconds of a civil date-time. -/
def epochOf (y m d h mi s : ℤ) : ℤ :=
  daysFromCivil y m d * 86400 + h * 3600 + mi * 60 + s

/-- Calendar day (days since epoch) holding an epoch-seconds instant; this
models taking `.date()` of a UTC timestamp. -/
def epochDay (t : ℤ) : ℤ := Int.fdiv t 86400

/-- Model of `pandas.to_datetime(s, format=..., utc=True)` restricted to the
two exact formats of `parse_time_df`: a string matching the naive shape is
taken as UTC directly; a string matching the aware shape is converted to UTC
by subtracting its positive offset.  Only called on matching rows. -/
def parseUTC : List Char → ℤ
  | [y1, y2, y3, y4, '-', m1, m2, '-', d1, d2, ' ',
     h1, h2, ':', n1, n2, ':', s1, s2] =>
      epochOf (1000 * digVal y1 + 100 * digVal y2 + 10 * digVal y3 + digVal y4)
        (10 * digVal m1 + digVal m2) (10 * digVal d1 + digVal d2)
        (10 * digVal h1 + digVal h2) (10 * digVal n1 + digVal n2)
        (10 * digVal s1 + digVal s2)
  | [y1, y2, y3, y4, '-', m1, m2, '-', d1, d2, ' ',
     h1, h2, ':', n1, n2, ':', s1, s2, '+', o1, o2, ':', p1, p2] =>
      epochOf (1000 * digVal y1 + 100 * digVal y2 + 10 * digVal y3 + digVal y4)
        (10 * digVal m1 + digVal m2) (10 * digVal d1 + digVal d2)
        (10 * digVal h1 + digVal h2) (10 * digVal n1 + digVal n2)
        (10 * digVal s1 + digVal s2)
      - ((10 * digVal o1 + digVal o2) * 60 + (10 * digVal p1 + digVal p2)) * 60
  | _ => 0

/-- Degrees to radians, modelling `np.radians`. -/
noncomputable def radiansR (x : ℝ) : ℝ := x * (Real.pi / 180)

open Classical in
/-- Model of `np.arctan2 y x`: the angle of the point `(x, y)`. -/
noncomputable def arctan2 (y x : ℝ) : ℝ :=
  if 0 < x then Real.arctan (y / x)
  else if x < 0 ∧ 0 ≤ y then Real.arctan (y / x) + Real.pi
  else if x < 0 ∧ y < 0 then Real.arctan (y / x) - Real.pi
  else if x = 0 ∧ 0 < y then Real.pi / 2
  else if x = 0 ∧ y < 0 then -(Real.pi / 2)
  else 0

/-- The intermediate quantity `a` of `processing.haversine`. -/
noncomputable def havA (lat1 lon1 lat2 lon2 : ℝ) : ℝ :=
  Real.sin ((radiansR lat2 - radiansR lat1) / 2) ^ 2 +
    Real.cos (radiansR lat1) * Real.cos (radiansR lat2) *
      Real.sin ((radiansR lon2 - radiansR lon1) / 2) ^ 2

/-- Model of `processing.haversine` (distance in km, Earth radius defaulting
to 6371 km). -/
noncomputable def haversine (lat1 lon1 lat2 lon2 : ℝ) (R : ℝ := 6371) : ℝ :=
  2 * R * arctan2 (Real.sqrt (havA lat1 lon1 lat2 lon2))
    (Real.sqrt (1 - havA lat1 lon1 lat2 lon2))

/-- A parsed timestamp: epoch seconds of the wall-clock calendar fields plus
an optional UTC offset in minutes (`none` for a naive result). -/
structure TS where
  naive : ℤ
  off : Option ℤ
deriving DecidableEq

/-- Gregorian leap-year test. -/
def isLeap (y : ℤ) : Bool := (y % 4 == 0 && y % 100 != 0) || y % 400 == 0

/-- Number of days of month `m` in year `y`. -/
def monthDays (y m : ℤ) : ℤ :=
  if m = 2 then (if isLeap y then 29 else 28)
  else if m = 4 ∨ m = 6 ∨ m = 9 ∨ m = 11 then 30
  else 31

/-- Reads the optional trailing UTC offset accepted by
`datetime.fromisoformat`: empty, or a sign followed by a two-digit, colon,
two-digit offset.  Returns `none` on a malformed tail. -/
def readOff : List Char → Option (Option ℤ)
  | [] => some Option.none
  | ['+', o1, o2, ':', p1, p2] =>
      if isDig o1 && isDig o2 && isDig p1 && isDig p2 &&
          decide (10 * digVal o1 + digVal o2 ≤ 23) &&
          decide (10 * digVal p1 + digVal p2 ≤ 59) then
        some (some ((10 * digVal o1 + digVal o2) * 60 + (10 * digVal p1 + digVal p2)))
      else none
  | ['-', o1, o2, ':', p1, p2] =>
      if isDig o1 && isDig o2 && isDig p1 && isDig p2 &&
          decide (10 * digVal o1 + digVal o2 ≤ 23) &&
          decide (10 * digVal p1 + digVal p2 ≤ 59) then
        some (some (-((10 * digVal o1 + digVal o2) * 60 + (10 * digVal p1 + digVal p2))))
      else none
  | _ => none

/-- Model of `datetime.fromisoformat` on the grammar the pipeline feeds it:
a date, a one-character separator, a seconds-precision time, and an optional
numeric UTC offset; field ranges are validated as the `datetime` constructor
does.  A literal Z suffix is not accepted here — the caller replaces it
first, which is why `parse_strava_gpx` performs that replacement. -/
def isoParse : List Char → Option TS
  | y1 :: y2 :: y3 :: y4 :: '-' :: m1 :: m2 :: '-' :: d1 :: d2 :: _sep ::
      h1 :: h2 :: ':' :: n1 :: n2 :: ':' :: s1 :: s2 :: rest =>
    let y := 1000 * digVal y1 + 100 * digVal y2 + 10 * digVal y3 + digVal y4
    let m := 10 * digVal m1 + digVal m2
    let d := 10 * digVal d1 + digVal d2
    let h := 10 * digVal h1 + digVal h2
    let mi := 10 * digVal n1 + digVal n2
    let s := 10 * digVal s1 + digVal s2
    if isDig y1 && isDig y2 && isDig y3 && isDig y4 &&
        isDig m1 && isDig m2 && isDig d1 && isDig d2 &&
        isDig h1 && isDig h2 && isDig n1 && isDig n2 && isDig s1 && isDig s2 &&
        decide (1 ≤ y) && decide (1 ≤ m) && decide (m ≤ 12) &&
        decide (1 ≤ d) && decide (d ≤ monthDays y m) &&
        decide (h ≤ 23) && decide (mi ≤ 59) && decide (s ≤ 59) then
      match readOff rest with
      | some o => some ⟨epochOf y m d h mi s, o⟩
      | none => none
    else none
  | _ => none

/-- Model of Python `s.replace("Z", "+00:00")`: every occurrence of the
single character Z is replaced. -/
def replaceZ : List Char → List Char
  | [] => []
  | c :: rest =>
    if c = 'Z' then '+' :: '0' :: '0' :: ':' :: '0' :: '0' :: replaceZ rest
    else c :: replaceZ rest

/-- The GPX timestamp normalization of `parse_strava_gpx.parse_gpx` line 66:
`datetime.fromisoformat(text.replace("Z", "+00:00"))`, wrapped in a
try/except that turns any parse failure into an absent value. -/
def normalizeTs (l : List Char) : Option TS := isoParse (replaceZ l)

/-- The tail accepted by the strptime directive for a UTC offset: a literal
Z, or a sign with two-digit hours, optionally a colon, and minutes
restricted to 00–59. -/
def pctZ : List Char → Option ℤ
  | ['Z'] => some 0
  | ['+', o1, o2, ':', p1, p2] =>
      if isDig o1 && isDig o2 && isDig p1 && isDig p2 &&
          decide (10 * digVal o1 + digVal o2 ≤ 23) &&
          decide (digVal p1 ≤ 5) then
        some ((10 * digVal o1 + digVal o2) * 60 + (10 * digVal p1 + digVal p2))
      else none
  | ['-', o1, o2, ':', p1, p2] =>
      if isDig o1 && isDig o2 && isDig p1 && isDig p2 &&
          decide (10 * digVal o1 + digVal o2 ≤ 23) &&
          decide (digVal p1 ≤ 5) then
        some (-((10 * digVal o1 + digVal o2) * 60 + (10 * digVal p1 + digVal p2)))
      else none
  | ['+', o1, o2, p1, p2] =>
      if isDig o1 && isDig o2 && isDig p1 && isDig p2 &&
          decide (10 * digVal o1 + digVal o2 ≤ 23) &&
          decide (digVal p1 ≤ 5) then
        some ((10 * digVal o1 + digVal o2) * 60 + (10 * digVal p1 + digVal p2))
      else none
  | ['-', o1, o2, p1, p2] =>
      if isDig o1 && isDig o2 && isDig p1 && isDig p2 &&
          decide (10 * digVal o1 + digVal o2 ≤ 23) &&
          decide (digVal p1 ≤ 5) then
        some (-((10 * digVal o1 + digVal o2) * 60 + (10 * digVal p1 + digVal p2)))
      else none
  | _ => none

/-- Reads the fixed part shared by the two strptime formats of
`processing.parse_time`: year-month-day, a literal space, and a
seconds-precision time, with calendar validation as `datetime` performs it.
Returns the fields and the unconsumed tail. -/
def readBase : List Char → Option ((ℤ × ℤ × ℤ × ℤ × ℤ × ℤ) × List Char)
  | y1 :: y2 :: y3 :: y4 :: '-' :: m1 :: m2 :: '-' :: d1 :: d2 :: ' ' ::
      h1 :: h2 :: ':' :: n1 :: n2 :: ':' :: s1 :: s2 :: rest =>
    let y := 1000 * digVal y1 + 100 * digVal y2 + 10 * digVal y3 + digVal y4
    let m := 10 * digVal m1 + digVal m2
    let d := 10 * digVal d1 + digVal d2
    let h := 10 * digVal h1 + digVal h2
    let mi := 10 * digVal n1 + digVal n2
    let s := 10 * digVal s1 + digVal s2
    if isDig y1 && isDig y2 && isDig y3 && isDig y4 &&
        isDig m1 && isDig m2 && isDig d1 && isDig d2 &&
        isDig h1 && isDig h2 && isDig n1 && isDig n2 && isDig s1 && isDig s2 &&
        decide (1 ≤ y) && decide (1 ≤ m) && decide (m ≤ 12) &&
        decide (1 ≤ d) && decide (d ≤ monthDays y m) &&
        decide (h ≤ 23) && decide (mi ≤ 59) && decide (s ≤ 59) then
      some ((y, m, d, h, mi, s), rest)
    else none
  | _ => none

/-- Epoch seconds of a six-tuple of calendar fields. -/
def epochOf6 : ℤ × ℤ × ℤ × ℤ × ℤ × ℤ → ℤ
  | (y, m, d, h, mi, s) => epochOf y m d h mi s

/-- Model of `processing.parse_time`: try the naive format, then the format
with a UTC-offset directive; on both failures return absent instead of
raising. -/
def parseTime (l : List Char) : Option TS :=
  match readBase l with
  | some (f, []) => some ⟨epochOf6 f, none⟩
  | some (f, rest) =>
      match pctZ rest with
      | some off => some ⟨epochOf6 f, some off⟩
      | none => none
  | none => none

/-- Round-half-to-even of a value in a linear ordered field with floor,
the rounding Python `round` uses. -/
def roundHE {α : Type} [LinearOrderedField α] [FloorRing α] (x : α) : ℤ :=
  let f := ⌊x⌋
  if x - f < 1 / 2 then f
  else if 1 / 2 < x - f then f + 1
  else if Even f then f else f + 1

/-- Python `round(x, 1)` on rationals. -/
def roundHE1 (x : ℚ) : ℚ := ((roundHE (x * 10) : ℤ) : ℚ) / 10

/-- Python `round(x, k)` idealised over the reals. -/
noncomputable def roundHER (x : ℝ) (k : ℕ) : ℝ :=
  ((roundHE (x * (10 : ℝ) ^ k) : ℤ) : ℝ) / (10 : ℝ) ^ k

/-- One row of the unified record DataFrame fed to `analyze_runs`: the dump
of one TrackPoint (plus the device-reported `distance` column present when
the frame originates from a consolidated CSV export).  `timeStr` is the
time value of the row rendered by `astype(str)`; numeric cells use `none` for
NaN (which is also how pandas stores a missing value). -/
structure DfRow where
  timeStr : String
  lat : Option ℚ
  lon : Option ℚ
  ele : Option ℚ
  hr : Option ℚ
  distance : Option ℚ
  activity_type : Option String
  run : String
deriving DecidableEq

/-- A record row paired with its parsed UTC timestamp (the `time_parsed`
column produced by `parse_time_df`, copied into `time`). -/
abbrev Row := DfRow × ℤ

/-- Line 193 of processing.py: keep rows whose activity_type is running. -/
def runningFilter (df : List DfRow) : List DfRow :=
  df.filter (fun r => r.activity_type == some "running")

/-- The row-retention effect of `parse_time_df`: the naive and aware slices
are concatenated and re-sorted by the original index, which equals filtering
by the two anchored regexes while preserving order. -/
def timeFilter (df : List DfRow) : List DfRow :=
  df.filter (fun r => timeMatches r.timeStr)

/-- Attach the parsed UTC timestamp to every retained row (the
`to_datetime` calls of `parse_time_df` with `utc=True`). -/
def withTimes (df : List DfRow) : List Row :=
  df.map (fun r => (r, parseUTC r.timeStr.data))

/-- Line 196: sort by run id, then time (stable lexicographic sort). -/
def sortRunTime (l : List Row) : List Row :=
  l.mergeSort (fun a b =>
    decide (a.1.run < b.1.run) || (a.1.run == b.1.run && decide (a.2 ≤ b.2)))

/-- Group keys of `groupby("run")`, in the ascending order pandas yields. -/
def runKeys (l : List Row) : List String :=
  ((l.map (fun r => r.1.run)).dedup).mergeSort (fun a b => decide (a ≤ b))

/-- The groups of `groupby("run")` followed by the per-group
`sort_values("time")` of line 200. -/
def groupsOf (l : List Row) : List (String × List Row) :=
  (runKeys l).map (fun k =>
    (k, (l.filter (fun r => r.1.run == k)).mergeSort (fun a b => decide (a.2 ≤ b.2))))

/-- pandas `Series.max` on a numeric column: NaN entries are skipped and an
empty or all-NaN column yields NaN. -/
def seriesMaxQ (l : List (Option ℚ)) : PyNum :=
  match l.reduceOption with
  | [] => .nan
  | x :: xs => .num (((xs.foldl max x : ℚ) : ℝ))

/-- pandas `Series.mean` on a numeric column: NaN entries are skipped and an
empty or all-NaN column yields NaN. -/
def seriesMeanQ (l : List (Option ℚ)) : PyNum :=
  let p := l.reduceOption
  if p.isEmpty then .nan else .num (((p.sum / (p.length : ℚ) : ℚ) : ℝ))

/-- Python builtin `max(m, b)` where the first argument is a pandas scalar:
if the first argument is NaN every comparison is false and NaN is returned
unchanged. -/
noncomputable def pyMaxD (m : PyNum) (b : ℝ) : PyNum :=
  match m with
  | .none => .none
  | .nan => .nan
  | .num a => .num (max a b)

/-- The coordinate pairs surviving the validity mask of lines 202–205:
rows whose latitude and longitude are both non-NaN, in row order. -/
def validPts (g : List Row) : List (ℝ × ℝ) :=
  g.filterMap (fun r =>
    match r.1.lat, r.1.lon with
    | some a, some b => some (((a : ℚ) : ℝ), ((b : ℚ) : ℝ))
    | _, _ => none)

/-- The accumulation loop of lines 206–209: walk consecutive pairs of the
filtered coordinate sequence, adding the haversine distance in metres. -/
noncomputable def distLoop : List (ℝ × ℝ) → ℝ
  | p :: q :: rest => haversine p.1 p.2 q.1 q.2 * 1000 + distLoop (q :: rest)
  | _ => 0

/-- Maximum of a list of timestamps (groups are nonempty where used). -/
def maxZ : List ℤ → ℤ
  | [] => 0
  | x :: xs => xs.foldl max x

/-- Minimum of a list of timestamps (groups are nonempty where used). -/
def minZ : List ℤ → ℤ
  | [] => 0
  | x :: xs => xs.foldl min x

/-- The per-run dictionary appended to `runs_summary` (lines 220–230). -/
structure RawSummary where
  run_id : String
  date : ℤ
  distance_km : PyNum
  duration_sec : ℝ
  pace_sec_per_km : PyNum
  avg_hr : PyNum
  aerobic_pct : PyNum

open Classical in
/-- The body of the per-group loop of `analyze_runs` (lines 199–230):
distance is the Python `max` of the device-reported distance column maximum
and the haversine accumulation; pace divides the duration by that metre
figure and then by 1000 again, guarded by the truthiness of `distance`
(NaN is truthy and propagates through the division). -/
noncomputable def summarizeGroup (k : String) (g : List Row) : RawSummary :=
  let distM := distLoop (validPts g)
  let distance := pyMaxD (seriesMaxQ (g.map (fun r => r.1.distance))) distM
  let times := g.map (fun r => r.2)
  let dur : ℝ := ((maxZ times - minZ times : ℤ) : ℝ)
  let hrs := g.map (fun r => r.1.hr)
  let cnt := hrs.reduceOption.length
  { run_id := k
    date := epochDay (maxZ times)
    distance_km := distance.divC 1000
    duration_sec := dur
    pace_sec_per_km :=
      match distance with
      | .none => .none
      | .nan => .nan
      | .num a => if a = 0 then .none else .num (dur / a / 1000)
    avg_hr := seriesMeanQ hrs
    aerobic_pct :=
      if cnt = 0 then .none
      else .num ((((hrs.reduceOption.filter (fun h => decide (h < 150))).length : ℚ)
        / (cnt : ℚ) * 100 : ℚ) : ℝ) }

/-- Column coercion applied when `pd.DataFrame(runs_summary)` is built: a
column containing any float (ordinary or NaN) becomes a float column, so its
None entries turn into NaN; a column that is all None stays object-typed and
keeps None. -/
def colAdjust (c : List PyNum) (v : PyNum) : PyNum :=
  if v.isNone && c.any (fun w => !w.isNone) then .nan else v

/-- One validated RunSummary row as returned to the caller. -/
structure RunOut where
  run_id : String
  date : ℤ
  distance_km : PyNum
  duration_sec : ℝ
  pace_sec_per_km : PyNum
  avg_hr : PyNum
  aerobic_pct : PyNum
  pace_min_km : PyNum

/-- Build one output row from the raw dictionaries: the DataFrame round trip
applies `colAdjust` per column, `pace_min_km` is the fixed pace column
divided by 60 (line 233), and `RunSummary.model_validate` passes the values
through unchanged — under pydantic v2 field collection the property/setter
pairs declared on RunSummary are removed from the class (the collected
attribute becomes the field default and is deleted), so the NaN-to-None
setters never execute and a NaN cell stays NaN in the validated model. -/
noncomputable def fixRun (raws : List RawSummary) (r : RawSummary) : RunOut :=
  let pace := colAdjust (raws.map (fun x => x.pace_sec_per_km)) r.pace_sec_per_km
  { run_id := r.run_id
    date := r.date
    distance_km := colAdjust (raws.map (fun x => x.distance_km)) r.distance_km
    duration_sec := r.duration_sec
    pace_sec_per_km := pace
    avg_hr := colAdjust (raws.map (fun x => x.avg_hr)) r.avg_hr
    aerobic_pct := colAdjust (raws.map (fun x => x.aerobic_pct)) r.aerobic_pct
    pace_min_km := pace.divC 60 }

/-- All validated RunSummary rows. -/
noncomputable def fixRuns (raws : List RawSummary) : List RunOut :=
  raws.map (fixRun raws)

/-- The five heart-rate bands of `processing.HR_ZONES`. -/
def hrZones : List (ℚ × ℚ) :=
  [(0, 3/5), (3/5, 7/10), (7/10, 4/5), (4/5, 9/10), (9/10, 1)]

/-- The zone labels used for the zone dictionary keys. -/
def zoneLabels : List String := ["zone_1", "zone_2", "zone_3", "zone_4", "zone_5"]

/-- Helper walking the time-sorted rows, pairing each row with the gap in
seconds to the previous row. -/
def deltasGo (prev : Row) : List Row → List (Row × ℤ)
  | [] => []
  | y :: rest => (y, y.2 - prev.2) :: deltasGo y rest

/-- Per-sample elapsed-time deltas of lines 250: `diff` over the time-sorted
rows with the first gap filled with zero. -/
def withDeltas : List Row → List (Row × ℤ)
  | [] => []
  | x :: rest => (x, 0) :: deltasGo x rest

/-- Number of non-NaN heart-rate samples of the filtered record set. -/
def hrCount (g : List Row) : ℕ :=
  (g.map (fun r => r.1.hr)).reduceOption.length

/-- Maximum observed heart rate (only used when at least one sample
exists). -/
def maxHrQ (g : List Row) : ℚ :=
  match (g.map (fun r => r.1.hr)).reduceOption with
  | [] => 0
  | x :: xs => xs.foldl max x

/-- Membership of one row in a zone band: the sample must have a heart
rate, and its ratio to the maximum must fall in the half-open band.  When
the maximum is zero the numpy ratio is NaN or infinite, so both anchored
comparisons exclude the row. -/
def rowInZone (mx lo hi : ℚ) (r : Row) : Bool :=
  match r.1.hr with
  | none => false
  | some h => if mx = 0 then false else decide (lo ≤ h / mx) && decide (h / mx < hi)

/-- The per-band minute totals of lines 248–253: the rows are re-sorted by
time, each band collects the delta-time sum of the rows whose heart-rate
ratio falls in it, converted to minutes and rounded to one decimal. -/
def zoneMinutes (rdf : List Row) : List ℚ :=
  let rows := rdf.mergeSort (fun a b => decide (a.2 ≤ b.2))
  let mx := maxHrQ rows
  let pairs := withDeltas rows
  hrZones.map (fun z =>
    roundHE1 ((((pairs.filter (fun p => rowInZone mx z.1 z.2 p.1)).map
      (fun p => ((p.2 : ℤ) : ℚ))).sum) / 60))

/-- The heart-rate zone distribution of lines 244–260: when at least one
sample exists, each band is reported as a percentage of the summed band
minutes — all zero when that sum is not positive; with zero samples every
band is reported as zero. -/
def zonePct (rdf : List Row) : List (String × ℚ) :=
  if hrCount rdf = 0 then zoneLabels.map (fun n => (n, (0 : ℚ)))
  else
    let zmins := zoneMinutes rdf
    let total := zmins.sum
    if 0 < total then zoneLabels.zip (zmins.map (fun v => v / total * 100))
    else zoneLabels.map (fun n => (n, (0 : ℚ)))

/-- A value of the aggregate metrics table. -/
inductive MetricVal where
  | int (n : ℕ)
  | flt (v : ℝ)
  | dash

/-- pandas `Series.sum` on a float column: NaN entries are skipped and an
empty or all-NaN column sums to zero. -/
noncomputable def pdSumP (l : List PyNum) : ℝ :=
  (l.filterMap (fun v => match v with | .num x => some x | _ => none)).sum

/-- pandas `Series.mean` on a float column of summary values. -/
noncomputable def pdMeanP (l : List PyNum) : PyNum :=
  let p := l.filterMap (fun v => match v with | .num x => some x | _ => none)
  match p with
  | [] => .nan
  | x :: xs => .num (((x :: xs).sum) / ((x :: xs).length : ℝ))

open Classical in
/-- Marathon predicate of line 241 on a summary row. -/
noncomputable def isMarathon (r : RunOut) : Bool :=
  match r.distance_km with
  | .num x => decide (42.195 ≤ x)
  | _ => false

open Classical in
/-- The aggregate metrics table of lines 235–283. -/
noncomputable def metricsOf (runs : List RunOut) : List (String × MetricVal) :=
  let totalDistance := pdSumP (runs.map (fun r => r.distance_km))
  let totalDurationH := (runs.map (fun r => r.duration_sec)).sum / 3600
  let overallPace : PyNum :=
    if totalDistance = 0 then .nan
    else .num ((runs.map (fun r => r.duration_sec)).sum / totalDistance)
  let avgPacePerRun : PyNum :=
    if runs.isEmpty then .nan else pdMeanP (runs.map (fun r => r.pace_sec_per_km))
  let marathons := runs.filter isMarathon
  let avgMarathonPace : PyNum :=
    if marathons.isEmpty then .nan else pdMeanP (marathons.map (fun r => r.pace_sec_per_km))
  let paceEntry : PyNum → MetricVal := fun v =>
    match v with
    | .num x => .flt (roundHER (x / 60) 2)
    | _ => .dash
  [("Total runs", .int runs.length),
   ("Total distance (km)", .flt (roundHER totalDistance 1)),
   ("Total duration (h)", .flt (roundHER totalDurationH 2)),
   ("Overall average pace (min/km)", paceEntry overallPace),
   ("Avg. pace per run (min/km)", paceEntry avgPacePerRun),
   ("Marathons completed", .int marathons.length),
   ("Avg. marathon pace (min/km)", paceEntry avgMarathonPace)]

/-- The triple returned by `analyze_runs`. -/
structure AnalyzeOut where
  runs : List RunOut
  metrics : List (String × MetricVal)
  zone_pct : List (String × ℚ)

/-- The part of `analyze_runs` downstream of the running/timestamp filters.
An empty summary frame makes line 233 raise a KeyError (the empty DataFrame
has no pace column); a pace column that is entirely None stays object-typed
and line 233 raises a TypeError dividing None by 60. -/
noncomputable def afterFilter (rdf : List Row) : Except String AnalyzeOut :=
  let sorted := sortRunTime rdf
  let raws := (groupsOf sorted).map (fun g => summarizeGroup g.1 g.2)
  match raws with
  | [] => .error "KeyError: pace_sec_per_km"
  | _ :: _ =>
    if (raws.map (fun r => r.pace_sec_per_km)).all (fun v => v.isNone) then
      .error "TypeError: unsupported operand types for /: NoneType and int"
    else
      .ok { runs := fixRuns raws
            metrics := metricsOf (fixRuns raws)
            zone_pct := zonePct sorted }

/-- Model of `processing.analyze_runs`: filter to running rows, drop rows
whose rendered time string matches neither timestamp regex, parse the
surviving timestamps, and run the summary computation. -/
noncomputable def analyzeRuns (df : List DfRow) : Except String AnalyzeOut :=
  afterFilter (withTimes (timeFilter (runningFilter df)))

/-- Python `int()` applied to a number: truncation toward zero. -/
def pyInt (q : ℚ) : ℤ := if 0 ≤ q then ⌊q⌋ else ⌈q⌉

/-- One decoded sample as built by the decoders (the backend TrackPoint
model: the shared TrackPoint fields plus the activity type and run id the
backend constructors attach). -/
structure TrackPoint where
  time : Option TS
  lat : ℚ
  lon : ℚ
  ele : Option ℚ
  hr : Option ℤ
  activity_type : Option String
  run : String
deriving DecidableEq

/-- One message of a FIT file as surfaced by the fitparse iteration:
whether it is a data message, and the raw field values pulled by name
(`none` when the field is absent or, for the timestamp, not a datetime). -/
structure FitRec where
  isData : Bool
  position_lat : Option ℤ
  position_long : Option ℤ
  timestamp : Option ℤ
  heart_rate : Option ℚ
  altitude : Option ℚ
deriving DecidableEq

/-- `parse_strava_fit._semicircle_to_deg`: `raw * 180 / 2**31`, absent in,
absent out. -/
def semicircleToDeg : Option ℤ → Option ℚ
  | none => none
  | some v => some ((v : ℚ) * 180 / 2 ^ 31)

/-- Model of `parse_strava_fit.parse_fit` over the record messages of one
file: non-data messages are skipped, a record lacking either converted
coordinate is skipped entirely, heart rate is coerced to an integer when
numeric, and the activity type (resolved from sport/session messages by
`_extract_sport`) and file stem are attached to every point. -/
def parseFit (actType : Option String) (name : String) (msgs : List FitRec) :
    List TrackPoint :=
  msgs.filterMap (fun r =>
    if !r.isData then none
    else
      match semicircleToDeg r.position_lat, semicircleToDeg r.position_long with
      | some la, some lo =>
          some { time := r.timestamp.map (fun t => TS.mk t none)
                 lat := la
                 lon := lo
                 ele := r.altitude
                 hr := r.heart_rate.map pyInt
                 activity_type := actType
                 run := name }
      | _, _ => none)

/-- One trkpt element of a GPX document as seen by the decoder.  For each
raw field, the outer `Option` is presence of the attribute/element and the
inner `Option` is success of the numeric conversion. -/
structure GpxPt where
  latAttr : Option (Option ℚ)
  lonAttr : Option (Option ℚ)
  eleText : Option (Option ℚ)
  timeText : Option String
  hrText : Option (Option ℤ)
deriving DecidableEq

/-- Reading a required coordinate attribute (`float(pt.attrib[...])`): a
missing attribute raises KeyError and an unparseable one raises ValueError;
neither is caught in `parse_gpx`. -/
def readReqAttr (a : Option (Option ℚ)) : Except String ℚ :=
  match a with
  | none => .error "KeyError"
  | some none => .error "ValueError: could not convert string to float"
  | some (some q) => .ok q

/-- Model of `parse_strava_gpx.parse_gpx` over the trkpt elements of one
document: the point loop reads lat/lon without any exception handler, so a
missing or malformed coordinate aborts the whole parse; elevation, time and
heart rate are best-effort (failure yields an absent field); the timestamp
goes through `normalizeTs`. -/
def parseGpx (actType : Option String) (name : String) :
    List GpxPt → Except String (List TrackPoint)
  | [] => .ok []
  | p :: rest =>
    match readReqAttr p.latAttr with
    | .error e => .error e
    | .ok la =>
      match readReqAttr p.lonAttr with
      | .error e => .error e
      | .ok lo =>
        (parseGpx actType name rest).map (fun ps =>
          { time := p.timeText.bind (fun s => normalizeTs s.data)
            lat := la
            lon := lo
            ele := p.eleText.bind id
            hr := p.hrText.bind id
            activity_type := actType
            run := name } :: ps)

/-- One archive entry of the uploaded zip: its path inside the archive, and
the outcome of handing its extracted bytes to the matching decoder (the
decoders are opaque to `process_zip`; a corrupt file surfaces as the raised
error, a healthy one as its decoded rows after `model_dump`). -/
structure ZipEntry where
  name : String
  decoded : Except String (List DfRow)

/-- Whether an entry name is dispatched to the FIT decoder. -/
def isFitName (name : String) : Bool :=
  strEnds name ".fit" || strEnds name ".fit.gz"

/-- Whether an entry is examined and decoded by the extraction loop of
`process_zip` lines 100–115: the path must contain the literal segment
activities and carry a recognised suffix. -/
def consideredEntry (e : ZipEntry) : Bool :=
  strHasSeg e.name "activities" && (isFitName e.name || strEnds e.name ".gpx")

/-- The extraction loop of `process_zip`: entries outside an activities
path or with an unrecognised suffix are skipped, each considered entry is
decoded with no exception handler (a decoder error propagates immediately),
and nonempty decodings are collected in order. -/
def collectDfs : List ZipEntry → Except String (List (List DfRow))
  | [] => .ok []
  | e :: rest =>
    if !strHasSeg e.name "activities" then collectDfs rest
    else if isFitName e.name || strEnds e.name ".gpx" then
      match e.decoded with
      | .error msg => .error msg
      | .ok pts => (collectDfs rest).map (fun ds => if pts.isEmpty then ds else pts :: ds)
    else collectDfs rest

/-- Model of `processing.process_zip`: collect the decoded frames, fail
with the no-data error when none is nonempty, otherwise concatenate them
and run `analyze_runs`. -/
noncomputable def processZip (entries : List ZipEntry) : Except String AnalyzeOut := do
  let dfs ← collectDfs entries
  if dfs.isEmpty then throw "No FIT/GPX files found"
  else analyzeRuns dfs.flatten

/-- Modelled from the spec: per-group distance in metres defined by the
words of the spec — the sum of haversine great-circle distances over each
consecutive pair of the coordinate-valid subsequence of the rows of the group
(used to compare the specified policy against the implemented one). -/
noncomputable def specPairSumM (g : List Row) : ℝ :=
  1000 * (((validPts g).zip (validPts g).tail).map
    (fun pq => haversine pq.1.1 pq.1.2 pq.2.1 pq.2.2)).sum

/-! Theorems. -/

/-- The intermediate haversine quantity is symmetric in its two coordinate
pairs. -/
theorem havA_symm (lat1 lon1 lat2 lon2 : ℝ) :
    havA lat1 lon1 lat2 lon2 = havA lat2 lon2 lat1 lon1 := by
  unfold havA
  have h : ∀ x y : ℝ, Real.sin ((x - y) / 2) ^ 2 = Real.sin ((y - x) / 2) ^ 2 := by
    intro x y
    rw [show (x - y) / 2 = -((y - x) / 2) by ring, Real.sin_neg, neg_sq]
  rw [h (radiansR lat2) (radiansR lat1), h (radiansR lon2) (radiansR lon1),
    mul_comm (Real.cos (radiansR lat1)) (Real.cos (radiansR lat2))]

/-- The intermediate haversine quantity vanishes on identical points. -/
theorem havA_self (lat lon : ℝ) : havA lat lon lat lon = 0 := by
  unfold havA
  simp

/-- The haversine distance from a point to itself is zero. -/
theorem haversine_self (lat lon R : ℝ) : haversine lat lon lat lon R = 0 := by
  unfold haversine
  rw [havA_self]
  rw [Real.sqrt_zero, sub_zero, Real.sqrt_one]
  unfold arctan2
  rw [if_pos (by norm_num : (0 : ℝ) < 1)]
  simp

/-- C9: for all coordinate pairs, the haversine distance of
`processing.haversine` is symmetric: swapping the two points (and keeping
any Earth radius, in particular the default 6371) gives the same value. -/
theorem c9_haversine_symm (lat1 lon1 lat2 lon2 R : ℝ) :
    haversine lat1 lon1 lat2 lon2 R = haversine lat2 lon2 lat1 lon1 R := by
  unfold haversine
  rw [havA_symm]

/-- C6: a FIT record message lacking either coordinate (semicircle
conversion of an absent value is absent) contributes no TrackPoint at all —
the decoded list equals the one for the file without that record — while a
data record carrying both coordinates contributes exactly one point. -/
theorem c6_fit_record_skip (pre post : List FitRec) (r rc : FitRec)
    (hdata : r.isData = true)
    (hmiss : r.position_lat = none ∨ r.position_long = none)
    (hcdata : rc.isData = true)
    (hclat : rc.position_lat.isSome) (hclon : rc.position_long.isSome)
    (actType : Option String) (name : String) :
    parseFit actType name (pre ++ r :: post) = parseFit actType name (pre ++ post) ∧
    (parseFit actType name (pre ++ rc :: post)).length
      = (parseFit actType name (pre ++ post)).length + 1 := by
  obtain ⟨a, ha⟩ := Option.isSome_iff_exists.mp hclat
  obtain ⟨b, hb⟩ := Option.isSome_iff_exists.mp hclon
  constructor
  · unfold parseFit
    rw [List.filterMap_append, List.filterMap_append, List.filterMap_cons]
    rcases hmiss with hlat | hlon
    · simp [hdata, hlat, semicircleToDeg]
    · cases hcase : r.position_lat <;>
        simp [hdata, hlon, hcase, semicircleToDeg]
  · unfold parseFit
    rw [List.filterMap_append, List.filterMap_append, List.filterMap_cons]
    simp [hcdata, ha, hb, semicircleToDeg, List.length_append]
    omega

/-- Witness for C6: a data record with a heart rate but no latitude is
dropped entirely from a file that also has a complete record, and restoring
its coordinates adds exactly one point. -/
theorem c6_fit_record_skip_witness :
    (FitRec.mk true none (some 7) (some 100) (some 150) none).isData = true ∧
    parseFit (some "running") "123"
        [FitRec.mk true (some 3) (some 4) (some 50) (some 120) none,
         FitRec.mk true none (some 7) (some 100) (some 150) none]
      = parseFit (some "running") "123"
        [FitRec.mk true (some 3) (some 4) (some 50) (some 120) none] ∧
    (parseFit (some "running") "123"
        [FitRec.mk true (some 3) (some 4) (some 50) (some 120) none,
         FitRec.mk true (some 5) (some 7) (some 100) (some 150) none]).length
      = (parseFit (some "running") "123"
        [FitRec.mk true (some 3) (some 4) (some 50) (some 120) none]).length + 1 := by
  refine ⟨rfl, ?_⟩
  exact c6_fit_record_skip
    [FitRec.mk true (some 3) (some 4) (some 50) (some 120) none] []
    (FitRec.mk true none (some 7) (some 100) (some 150) none)
    (FitRec.mk true (some 5) (some 7) (some 100) (some 150) none)
    rfl (Or.inl rfl) rfl rfl rfl (some "running") "123"

/-- C4 counterexample: a GPX point whose lat attribute is missing, followed
by a perfectly well-formed point, makes `parse_gpx` raise (KeyError) instead
of dropping the bad point and returning the remaining TrackPoint — refuting
the claim that a malformed coordinate only drops that single point. -/
theorem c4_gpx_point_drop_counterexample :
    parseGpx (some "running") "456"
      [GpxPt.mk none (some (some 5)) none none none,
       GpxPt.mk (some (some 1)) (some (some 2)) none
         (some "2024-06-01T10:00:00Z") (some (some 140))]
      = Except.error "KeyError" := rfl

/-- C4 amended: in `parse_gpx` a point whose lat or lon attribute is missing
or unparseable aborts the decode of the whole file — the first such point
makes the function raise, and no TrackPoint is returned at all (elevation,
time and heart-rate failures, by contrast, are recovered per point). -/
theorem c4_gpx_bad_coordinate_aborts (pre post : List GpxPt) (p : GpxPt)
    (hpre : ∀ q ∈ pre, (readReqAttr q.latAttr).isOk = true ∧
      (readReqAttr q.lonAttr).isOk = true)
    (hbad : (readReqAttr p.latAttr).isOk = false ∨
      (readReqAttr p.lonAttr).isOk = false)
    (actType : Option String) (name : String) :
    ∃ msg, parseGpx actType name (pre ++ p :: post) = Except.error msg := by
  induction pre with
  | nil =>
    rw [List.nil_append]
    cases hlat : readReqAttr p.latAttr with
    | error e =>
      exact ⟨e, by rw [parseGpx, hlat]⟩
    | ok la =>
      cases hlon : readReqAttr p.lonAttr with
      | error e =>
        exact ⟨e, by rw [parseGpx, hlat, hlon]⟩
      | ok lo =>
        rcases hbad with h | h <;> simp [hlat, hlon, Except.isOk, Except.toBool] at h
  | cons q rest ih =>
    obtain ⟨hqla, hqlo⟩ := hpre q (List.mem_cons_self q rest)
    cases hlat : readReqAttr q.latAttr with
    | error e => rw [hlat] at hqla; simp [Except.isOk, Except.toBool] at hqla
    | ok la =>
      cases hlon : readReqAttr q.lonAttr with
      | error e => rw [hlon] at hqlo; simp [Except.isOk, Except.toBool] at hqlo
      | ok lo =>
        obtain ⟨msg, hmsg⟩ := ih (fun x hx => hpre x (List.mem_cons_of_mem q hx))
        refine ⟨msg, ?_⟩
        rw [List.cons_append, parseGpx, hlat, hlon, hmsg]
        rfl

/-- Witness for C4 amended: with one healthy point before it, a point whose
lon attribute is present but unparseable aborts the whole file. -/
theorem c4_gpx_bad_coordinate_aborts_witness :
    (∀ q ∈ [GpxPt.mk (some (some 1)) (some (some 2)) none none none],
      (readReqAttr q.latAttr).isOk = true ∧ (readReqAttr q.lonAttr).isOk = true) ∧
    (readReqAttr (GpxPt.mk (some (some 3)) (some none) none none
      (some (some 140))).lonAttr).isOk = false ∧
    ∃ msg, parseGpx (some "running") "456"
      ([GpxPt.mk (some (some 1)) (some (some 2)) none none none] ++
        GpxPt.mk (some (some 3)) (some none) none none (some (some 140)) :: [])
      = Except.error msg :=
  ⟨by decide, by decide,
    c4_gpx_bad_coordinate_aborts
      [GpxPt.mk (some (some 1)) (some (some 2)) none none none] []
      (GpxPt.mk (some (some 3)) (some none) none none (some (some 140)))
      (by decide) (Or.inr (by decide)) (some "running") "456"⟩

/-- The extraction loop propagates the first decoder failure among the
considered entries when every considered entry before it decodes. -/
theorem collectDfs_error (pre post : List ZipEntry) (e : ZipEntry) (msg : String)
    (hpre : ∀ x ∈ pre, consideredEntry x = true → x.decoded.isOk = true)
    (hcons : consideredEntry e = true) (herr : e.decoded = Except.error msg) :
    collectDfs (pre ++ e :: post) = Except.error msg := by
  induction pre with
  | nil =>
    rw [List.nil_append]
    obtain ⟨hseg, hsuf⟩ : strHasSeg e.name "activities" = true ∧
        (isFitName e.name || strEnds e.name ".gpx") = true := by
      simpa [consideredEntry] using hcons
    rw [collectDfs, hseg]
    simp only [Bool.not_true, Bool.false_eq_true, if_false, hsuf, if_true, herr]
  | cons x rest ih =>
    have hx := hpre x (List.mem_cons_self x rest)
    have hrest := ih (fun y hy => hpre y (List.mem_cons_of_mem x hy))
    rw [List.cons_append, collectDfs]
    cases hseg : strHasSeg x.name "activities" with
    | false => simp only [hseg, Bool.not_false, if_true, hrest]
    | true =>
      simp only [hseg, Bool.not_true, Bool.false_eq_true, if_false]
      cases hsuf : (isFitName x.name || strEnds x.name ".gpx") with
      | false => simp only [Bool.false_eq_true, if_false, hrest]
      | true =>
        simp only [if_true]
        have hxok : x.decoded.isOk = true := hx (by simp [consideredEntry, hseg, hsuf])
        cases hdec : x.decoded with
        | error m => rw [hdec] at hxok; simp [Except.isOk, Except.toBool] at hxok
        | ok pts => rw [hrest]; rfl

/-- C3 counterexample: an archive whose first activities entry is a corrupt
FIT file and whose second is a healthy GPX file makes `process_zip` raise
the decoder error to the caller instead of returning the runs of the
healthy entry. -/
theorem c3_corrupt_entry_counterexample :
    processZip
      [ZipEntry.mk "activities/123.fit.gz" (Except.error "corrupt gzip"),
       ZipEntry.mk "activities/456.gpx" (Except.ok
         [DfRow.mk "2024-06-01 10:00:00" (some 1) (some 2) none (some 140) none
           (some "running") "456"])]
      = Except.error "corrupt gzip" := by
  rw [processZip, collectDfs]
  rfl

/-- C3 amended: decoding failure of a considered entry is not absorbed —
`process_zip` propagates the first such error to the caller (the entries
after it are never used), provided the considered entries before it decode
without raising. -/
theorem c3_entry_failure_aborts (pre post : List ZipEntry) (e : ZipEntry) (msg : String)
    (hpre : ∀ x ∈ pre, consideredEntry x = true → x.decoded.isOk = true)
    (hcons : consideredEntry e = true) (herr : e.decoded = Except.error msg) :
    processZip (pre ++ e :: post) = Except.error msg := by
  rw [processZip, collectDfs_error pre post e msg hpre hcons herr]
  rfl

/-- Witness for C3 amended: a corrupt gzip entry after one skipped
non-activities entry and one healthy activities entry aborts the upload. -/
theorem c3_entry_failure_aborts_witness :
    (∀ x ∈ [ZipEntry.mk "media/photo.jpg" (Except.ok []),
            ZipEntry.mk "activities/1.gpx" (Except.ok [])],
      consideredEntry x = true → x.decoded.isOk = true) ∧
    consideredEntry (ZipEntry.mk "activities/2.fit.gz" (Except.error "corrupt gzip")) = true ∧
    processZip
      ([ZipEntry.mk "media/photo.jpg" (Except.ok []),
        ZipEntry.mk "activities/1.gpx" (Except.ok [])] ++
        ZipEntry.mk "activities/2.fit.gz" (Except.error "corrupt gzip") :: [])
      = Except.error "corrupt gzip" := by
  refine ⟨?_, ?_, ?_⟩
  · intro x hx
    fin_cases hx <;> intro hc <;> rfl
  · rfl
  · exact c3_entry_failure_aborts
      [ZipEntry.mk "media/photo.jpg" (Except.ok []),
       ZipEntry.mk "activities/1.gpx" (Except.ok [])] []
      (ZipEntry.mk "activities/2.fit.gz" (Except.error "corrupt gzip"))
      "corrupt gzip"
      (by intro x hx; fin_cases hx <;> intro hc <;> rfl)
      rfl rfl

/-- The accumulation loop over the filtered coordinates computes exactly
1000 times the sum of haversine distances over consecutive pairs of the
filtered sequence. -/
theorem distLoop_eq_pairSum (l : List (ℝ × ℝ)) :
    distLoop l
      = 1000 * ((l.zip l.tail).map
          (fun pq => haversine pq.1.1 pq.1.2 pq.2.1 pq.2.2)).sum := by
  induction l with
  | nil => simp [distLoop]
  | cons p rest ih =>
    cases rest with
    | nil => simp [distLoop]
    | cons q rest2 =>
      rw [distLoop, ih]
      simp only [List.tail_cons, List.zip_cons_cons, List.map_cons, List.sum_cons]
      ring

/-- C2 counterexample: a group of two rows at identical coordinates but
with a device-reported distance column of 5 metres reports
`distance_km = 0.005`, while the haversine pair-walk total is zero — so
`distance_km` is not the haversine sum and the device-reported field does
contribute. -/
theorem c2_device_distance_counterexample :
    (summarizeGroup "a"
      [(DfRow.mk "2024-06-01 10:00:00" (some 0) (some 0) none none (some 5)
          (some "running") "a", 0),
       (DfRow.mk "2024-06-01 10:01:00" (some 0) (some 0) none none (some 5)
          (some "running") "a", 60)]).distance_km
      = PyNum.num (1 / 200) ∧
    specPairSumM
      [(DfRow.mk "2024-06-01 10:00:00" (some 0) (some 0) none none (some 5)
          (some "running") "a", 0),
       (DfRow.mk "2024-06-01 10:01:00" (some 0) (some 0) none none (some 5)
          (some "running") "a", 60)] / 1000 = 0 ∧
    ((1 : ℝ) / 200) ≠ 0 := by
  refine ⟨?_, ?_, by norm_num⟩
  · simp only [summarizeGroup, validPts, List.filterMap_cons, List.filterMap_nil,
      distLoop, haversine_self, seriesMaxQ, List.map_cons, List.map_nil,
      List.reduceOption, pyMaxD, PyNum.divC]
    norm_num
  · simp only [specPairSumM, validPts, List.filterMap_cons, List.filterMap_nil,
      List.tail_cons, List.zip_cons_cons, List.zip_nil_right, List.map_cons,
      List.map_nil, List.sum_cons, List.sum_nil, haversine_self]
    norm_num

/-- C2 amended: per group, `distance_km` equals the Python `max` of the
device-reported distance column maximum of the group (NaN when no value is
present) and the haversine pair-walk total over the coordinate-valid
subsequence (in metres, as the spec words define it), divided by 1000. -/
theorem c2_distance_amended (k : String) (g : List Row) :
    (summarizeGroup k g).distance_km
      = (pyMaxD (seriesMaxQ (g.map (fun r => r.1.distance))) (specPairSumM g)).divC 1000 := by
  simp only [summarizeGroup, specPairSumM]
  rw [distLoop_eq_pairSum]

/-- C10: a record whose rendered time string matches neither of the two
timestamp regexes is removed before grouping and contributes to no part of
the output of `analyze_runs` — runs, metrics and zone distribution are all
identical to the run without that record. -/
theorem c10_unmatched_time_rows_removed (pre post : List DfRow) (r : DfRow)
    (hr : timeMatches r.timeStr = false) :
    analyzeRuns (pre ++ r :: post) = analyzeRuns (pre ++ post) := by
  unfold analyzeRuns
  have h : timeFilter (runningFilter (pre ++ r :: post))
      = timeFilter (runningFilter (pre ++ post)) := by
    unfold timeFilter runningFilter
    rw [List.filter_append, List.filter_append, List.filter_cons]
    cases hact : (r.activity_type == some "running") with
    | false => simp
    | true =>
      simp only [if_true]
      rw [List.filter_append, List.filter_append, List.filter_cons, hr]
      simp
  rw [h]

/-- Witness for C10: a running record whose timestamp has fractional
seconds (so matches neither regex) leaves `analyze_runs` output unchanged;
both sides degenerate to the empty-frame error. -/
theorem c10_unmatched_time_rows_removed_witness :
    timeMatches "2024-06-01 10:00:00.123" = false ∧
    analyzeRuns
      ([] ++ DfRow.mk "2024-06-01 10:00:00.123" (some 1) (some 2) none
        (some 140) none (some "running") "x" :: [])
      = analyzeRuns ([] ++ []) :=
  ⟨by decide,
    c10_unmatched_time_rows_removed [] []
      (DfRow.mk "2024-06-01 10:00:00.123" (some 1) (some 2) none
        (some 140) none (some "running") "x")
      (by decide)⟩

/-- Summing the per-band percentages: dividing each element by `t` and
scaling by 100 turns the list sum into `sum / t * 100`. -/
theorem sum_map_div_mul (l : List ℚ) (t : ℚ) :
    (l.map (fun v => v / t * 100)).sum = l.sum / t * 100 := by
  induction l with
  | nil => simp
  | cons x xs ih =>
    simp only [List.map_cons, List.sum_cons, ih]
    ring

/-- A one-element delta-pair list whose delta is zero contributes zero
minutes to any band, whatever the membership test says. -/
theorem filter_single_zero_sum (p : Row × ℤ) (hp : p.2 = 0) (f : Row × ℤ → Bool) :
    ((List.filter f [p]).map (fun q => ((q.2 : ℤ) : ℚ))).sum = 0 := by
  cases hf : f p <;> simp [List.filter_cons, hf, hp]

/-- C7 counterexample: a single running record with a heart-rate sample has
one heart-rate sample, yet every zone percentage is zero (its only
delta-time is zero, so every band rounds to zero minutes and the
normalisation branch is skipped) — the percentages sum to 0, not 100. -/
theorem c7_zone_counterexample :
    hrCount [(DfRow.mk "2024-06-01 10:00:00" (some 1) (some 2) none (some 140)
      none (some "running") "a", 0)] = 1 ∧
    zonePct [(DfRow.mk "2024-06-01 10:00:00" (some 1) (some 2) none (some 140)
      none (some "running") "a", 0)]
      = [("zone_1", 0), ("zone_2", 0), ("zone_3", 0), ("zone_4", 0), ("zone_5", 0)] ∧
    ((0 : ℚ) + 0 + 0 + 0 + 0) ≠ 100 := by
  refine ⟨by decide, ?_, by norm_num⟩
  have hpairs : withDeltas (List.mergeSort
      [(DfRow.mk "2024-06-01 10:00:00" (some 1) (some 2) none (some 140)
        none (some "running") "a", (0 : ℤ))] (fun a b => decide (a.2 ≤ b.2)))
      = [((DfRow.mk "2024-06-01 10:00:00" (some 1) (some 2) none (some 140)
        none (some "running") "a", (0 : ℤ)), 0)] := by
    rw [List.mergeSort_singleton]
    rfl
  have hzm : zoneMinutes [(DfRow.mk "2024-06-01 10:00:00" (some 1) (some 2) none
      (some 140) none (some "running") "a", 0)] = [0, 0, 0, 0, 0] := by
    simp only [zoneMinutes, hpairs, hrZones, List.map_cons, List.map_nil]
    rw [filter_single_zero_sum _ rfl, filter_single_zero_sum _ rfl,
      filter_single_zero_sum _ rfl, filter_single_zero_sum _ rfl,
      filter_single_zero_sum _ rfl]
    norm_num [roundHE1, roundHE]
  simp only [zonePct, hzm]
  rw [if_neg (by decide), if_neg (by norm_num)]
  rfl

/-- C7 amended: the five zone percentages sum to exactly 100 whenever at
least one heart-rate sample exists and the rounded per-band minute totals
sum to a positive value; they are all zero when there is no heart-rate
sample, and also all zero when the rounded totals sum to zero (e.g. a lone
sample, or samples whose ratios all fall outside the half-open bands). -/
theorem c7_zone_pct_amended (rdf : List Row) :
    (hrCount rdf ≠ 0 → 0 < (zoneMinutes rdf).sum →
      ((zonePct rdf).map (fun p => p.2)).sum = 100) ∧
    (hrCount rdf = 0 → zonePct rdf = zoneLabels.map (fun n => (n, (0 : ℚ)))) ∧
    (hrCount rdf ≠ 0 → ¬ 0 < (zoneMinutes rdf).sum →
      zonePct rdf = zoneLabels.map (fun n => (n, (0 : ℚ)))) := by
  refine ⟨?_, ?_, ?_⟩
  · intro hcnt htot
    unfold zonePct
    rw [if_neg hcnt, if_pos htot]
    have hlen : ((zoneMinutes rdf).map
        (fun v => v / (zoneMinutes rdf).sum * 100)).length ≤ zoneLabels.length := by
      simp [zoneMinutes, zoneLabels, hrZones]
    rw [List.map_snd_zip _ _ hlen, sum_map_div_mul, div_self (ne_of_gt htot)]
    norm_num
  · intro hcnt
    unfold zonePct
    rw [if_pos hcnt]
  · intro hcnt htot
    unfold zonePct
    rw [if_neg hcnt, if_neg htot]

/-- Witness for C7 amended: two samples a minute apart (heart rates 100 and
140) give one band a rounded minute, so the percentages sum to 100; and the
empty record set reports all zones zero. -/
theorem c7_zone_pct_amended_witness :
    (hrCount [(DfRow.mk "t1" (some 1) (some 2) none (some 140) none
        (some "running") "a", 0),
      (DfRow.mk "t2" (some 1) (some 2) none (some 100) none
        (some "running") "a", 60)] ≠ 0 ∧
     0 < (zoneMinutes [(DfRow.mk "t1" (some 1) (some 2) none (some 140) none
        (some "running") "a", 0),
      (DfRow.mk "t2" (some 1) (some 2) none (some 100) none
        (some "running") "a", 60)]).sum ∧
     ((zonePct [(DfRow.mk "t1" (some 1) (some 2) none (some 140) none
        (some "running") "a", 0),
      (DfRow.mk "t2" (some 1) (some 2) none (some 100) none
        (some "running") "a", 60)]).map (fun p => p.2)).sum = 100) ∧
    (hrCount ([] : List Row) = 0 ∧
     zonePct ([] : List Row) = zoneLabels.map (fun n => (n, (0 : ℚ)))) := by
  have h1 : hrCount [(DfRow.mk "t1" (some 1) (some 2) none (some 140) none
      (some "running") "a", 0),
    (DfRow.mk "t2" (some 1) (some 2) none (some 100) none
      (some "running") "a", 60)] ≠ 0 := by decide
  have hms : List.mergeSort
      [(DfRow.mk "t1" (some 1) (some 2) none (some 140) none (some "running") "a", (0 : ℤ)),
       (DfRow.mk "t2" (some 1) (some 2) none (some 100) none (some "running") "a", 60)]
      (fun a b => decide (a.2 ≤ b.2))
      = [(DfRow.mk "t1" (some 1) (some 2) none (some 140) none (some "running") "a", (0 : ℤ)),
         (DfRow.mk "t2" (some 1) (some 2) none (some 100) none (some "running") "a", 60)] := by
    refine List.mergeSort_of_sorted ?_
    simp [List.pairwise_cons]
  have hmx : maxHrQ
      [(DfRow.mk "t1" (some 1) (some 2) none (some 140) none (some "running") "a", (0 : ℤ)),
       (DfRow.mk "t2" (some 1) (some 2) none (some 100) none (some "running") "a", 60)]
      = 140 := by
    simp only [maxHrQ, List.map_cons, List.map_nil, List.reduceOption_cons_of_some,
      List.reduceOption_nil, List.foldl]
    norm_num [max_def]
  have h2 : 0 < (zoneMinutes [(DfRow.mk "t1" (some 1) (some 2) none (some 140) none
      (some "running") "a", 0),
    (DfRow.mk "t2" (some 1) (some 2) none (some 100) none
      (some "running") "a", 60)]).sum := by
    simp only [zoneMinutes, hms, hmx, withDeltas, deltasGo, hrZones,
      List.map_cons, List.map_nil]
    norm_num [rowInZone, List.filter_cons, List.filter_nil, roundHE1, roundHE]
  refine ⟨⟨h1, h2, (c7_zone_pct_amended _).1 h1 h2⟩,
    ⟨rfl, (c7_zone_pct_amended ([] : List Row)).2.1 rfl⟩⟩

/-- Replacing Z in a Z-free string followed by a lone Z yields the string
followed by the literal +00:00 offset. -/
theorem replaceZ_noZ_append (l : List Char) (hz : 'Z' ∉ l) :
    replaceZ (l ++ ['Z']) = l ++ ['+', '0', '0', ':', '0', '0'] := by
  induction l with
  | nil => rfl
  | cons c rest ih =>
    have hcne : ¬ c = 'Z' := by
      intro h
      subst h
      exact hz (List.mem_cons_self _ _)
    rw [List.cons_append, replaceZ, if_neg hcne,
      ih (fun hm => hz (List.mem_cons_of_mem c hm)), List.cons_append]

/-- C8: timestamp normalization treats a literal Z suffix exactly as the
explicit +00:00 offset (for any Z-free stem), accepts ISO-8601 strings with
a Z suffix or an explicit numeric offset yielding the corresponding
timestamp, and returns absent — rather than raising — on strings it cannot
parse; the same holds for the strptime-based `parse_time` and its two
formats. -/
theorem c8_timestamp_normalization :
    (∀ l : List Char, 'Z' ∉ l →
      normalizeTs (l ++ ['Z']) = isoParse (l ++ ['+', '0', '0', ':', '0', '0'])) ∧
    normalizeTs "2024-06-01T10:20:30Z".data
      = some (TS.mk (epochOf 2024 6 1 10 20 30) (some 0)) ∧
    normalizeTs "2024-06-01T10:20:30+05:30".data
      = some (TS.mk (epochOf 2024 6 1 10 20 30) (some 330)) ∧
    normalizeTs "2024-06-01 99:99:99".data = none ∧
    parseTime "2024-06-01 10:20:30Z".data
      = some (TS.mk (epochOf 2024 6 1 10 20 30) (some 0)) ∧
    parseTime "2024-06-01 10:20:30+05:30".data
      = some (TS.mk (epochOf 2024 6 1 10 20 30) (some 330)) ∧
    parseTime "not a timestamp".data = none := by
  refine ⟨?_, by decide, by decide, by decide, by decide, by decide, by decide⟩
  intro l hz
  unfold normalizeTs
  rw [replaceZ_noZ_append l hz]

/-- Witness for C8: the general Z-as-UTC-offset equivalence applied to a
concrete Z-free ISO stem. -/
theorem c8_timestamp_normalization_witness :
    'Z' ∉ "2024-06-01T10:20:30".data ∧
    normalizeTs ("2024-06-01T10:20:30".data ++ ['Z'])
      = isoParse ("2024-06-01T10:20:30".data ++ ['+', '0', '0', ':', '0', '0']) :=
  ⟨by decide, c8_timestamp_normalization.1 "2024-06-01T10:20:30".data (by decide)⟩

/-- C5 evaluation at the failing input: for a run group with zero
heart-rate samples the raw summary field `avg_hr` is NaN (pandas mean of an
empty selection), and it is still NaN — not an absent value — in the
validated RunSummary rows returned to the caller, because the pydantic v2
boundary passes field values through unchanged; `aerobic_pct`, by contrast,
is explicitly absent. -/
theorem c5_avg_hr_nan_eval :
    (summarizeGroup "r"
      [(DfRow.mk "t1" (some 1) (some 2) none none none (some "running") "r", 0),
       (DfRow.mk "t2" (some 1) (some 2) none none none (some "running") "r", 300)]).avg_hr
      = PyNum.nan ∧
    (fixRuns [summarizeGroup "r"
      [(DfRow.mk "t1" (some 1) (some 2) none none none (some "running") "r", 0),
       (DfRow.mk "t2" (some 1) (some 2) none none none (some "running") "r", 300)]]).map
        (fun r => r.avg_hr) = [PyNum.nan] ∧
    (fixRuns [summarizeGroup "r"
      [(DfRow.mk "t1" (some 1) (some 2) none none none (some "running") "r", 0),
       (DfRow.mk "t2" (some 1) (some 2) none none none (some "running") "r", 300)]]).map
        (fun r => r.aerobic_pct) = [PyNum.none] ∧
    PyNum.nan ≠ PyNum.none := by
  have havg : (summarizeGroup "r"
      [(DfRow.mk "t1" (some 1) (some 2) none none none (some "running") "r", 0),
       (DfRow.mk "t2" (some 1) (some 2) none none none (some "running") "r", 300)]).avg_hr
      = PyNum.nan := by
    simp [summarizeGroup, seriesMeanQ, List.reduceOption]
  have haer : (summarizeGroup "r"
      [(DfRow.mk "t1" (some 1) (some 2) none none none (some "running") "r", 0),
       (DfRow.mk "t2" (some 1) (some 2) none none none (some "running") "r", 300)]).aerobic_pct
      = PyNum.none := by
    simp [summarizeGroup, List.reduceOption]
  refine ⟨havg, ?_, ?_, by simp⟩
  · simp [fixRuns, fixRun, colAdjust, havg, PyNum.isNone]
  · simp [fixRuns, fixRun, colAdjust, haer, PyNum.isNone]

/-- C1 evaluation at the failing input: a run of 300 seconds with a
device-reported distance of 1000 metres (identical coordinates, so the
haversine walk adds nothing) yields `distance_km = 1` and
`duration_sec = 300`, but `pace_sec_per_km = 0.0003` — the code divides the
duration by the metre distance and then by 1000 again, instead of dividing
by the kilometre distance, so the reported pace is not 300. -/
theorem c1_pace_formula_bug_eval :
    (summarizeGroup "r"
      [(DfRow.mk "t1" (some 0) (some 0) none none (some 1000) (some "running") "r", 0),
       (DfRow.mk "t2" (some 0) (some 0) none none (some 1000) (some "running") "r", 300)]).pace_sec_per_km
      = PyNum.num (3 / 10000) ∧
    (summarizeGroup "r"
      [(DfRow.mk "t1" (some 0) (some 0) none none (some 1000) (some "running") "r", 0),
       (DfRow.mk "t2" (some 0) (some 0) none none (some 1000) (some "running") "r", 300)]).distance_km
      = PyNum.num 1 ∧
    (summarizeGroup "r"
      [(DfRow.mk "t1" (some 0) (some 0) none none (some 1000) (some "running") "r", 0),
       (DfRow.mk "t2" (some 0) (some 0) none none (some 1000) (some "running") "r", 300)]).duration_sec
      = 300 ∧
    ((3 : ℝ) / 10000) ≠ 300 / 1 := by
  have hvalid : validPts
      [(DfRow.mk "t1" (some 0) (some 0) none none (some 1000) (some "running") "r", (0 : ℤ)),
       (DfRow.mk "t2" (some 0) (some 0) none none (some 1000) (some "running") "r", 300)]
      = [((0 : ℝ), (0 : ℝ)), (0, 0)] := by
    simp [validPts]
  have hloop : distLoop [((0 : ℝ), (0 : ℝ)), (0, 0)] = 0 := by
    simp [distLoop, haversine_self]
  have hmaxq : seriesMaxQ [some (1000 : ℚ), some 1000] = PyNum.num 1000 := by
    have hro : ([some (1000 : ℚ), some 1000].reduceOption) = [1000, 1000] := rfl
    simp only [seriesMaxQ, hro, List.foldl]
    norm_num
  have hd : pyMaxD (seriesMaxQ (List.map (fun r : Row => r.1.distance)
      [(DfRow.mk "t1" (some 0) (some 0) none none (some 1000) (some "running") "r", (0 : ℤ)),
       (DfRow.mk "t2" (some 0) (some 0) none none (some 1000) (some "running") "r", 300)]))
      (distLoop (validPts
      [(DfRow.mk "t1" (some 0) (some 0) none none (some 1000) (some "running") "r", (0 : ℤ)),
       (DfRow.mk "t2" (some 0) (some 0) none none (some 1000) (some "running") "r", 300)]))
      = PyNum.num 1000 := by
    rw [hvalid, hloop,
      show List.map (fun r : Row => r.1.distance)
        [(DfRow.mk "t1" (some 0) (some 0) none none (some 1000) (some "running") "r", (0 : ℤ)),
         (DfRow.mk "t2" (some 0) (some 0) none none (some 1000) (some "running") "r", 300)]
        = [some (1000 : ℚ), some 1000] from rfl, hmaxq]
    simp [pyMaxD]
  refine ⟨?_, ?_, ?_, by norm_num⟩
  · simp only [summarizeGroup, hd]
    rw [if_neg (by norm_num : ¬ (1000 : ℝ) = 0)]
    norm_num [maxZ, minZ, List.foldl, max_def, min_def]
  · simp only [summarizeGroup, hd, PyNum.divC]
    norm_num
  · simp only [summarizeGroup]
    norm_num [maxZ, minZ, List.foldl, max_def, min_def]

end Marathon
